import Mathlib

/-!
Verification of the AutoInspect AI damage-to-cost estimation frontend and
its estimation engine specification.

The repository snapshot contains the React frontend: the axios API client
(`services/api.js`), the application shell (`App.jsx`), and the components
`DetectionResults.jsx` and `CostEstimation.jsx`.  Those are embedded below
from the source.  The backend estimation engine (severity classifier, cost
rule table, override resolver, line-item calculator, aggregator) is not in
the snapshot; where a claim is about the engine it is modelled from the
specification, and each such definition is marked `Modelled from the spec:`.

Currency amounts, rates and percentages are modelled as rationals (ℚ).
JavaScript files are modelled as opaque identifiers (Nat).
-/

namespace Api

/-- Options object accepted by `createEstimation(detectionId, options = {})`
in `services/api.js`.  An absent property is `none`; `includePaint` is a
boolean property, `laborRate` and `markup` are numeric properties. -/
structure EstimationOptions where
  includePaint : Option Bool := none
  laborRate : Option ℚ := none
  markup : Option ℚ := none
deriving DecidableEq, Repr

/-- The JavaScript expression `x || null` applied to an optional numeric
option: `undefined` and `0` are falsy, every other number is truthy. -/
def jsOrNullNum (x : Option ℚ) : Option ℚ :=
  match x with
  | none => none
  | some v => if v = 0 then none else some v

/-- The request body built by `createEstimation` in `services/api.js`:
`{ detection_id, include_paint, labor_rate_override, markup_override }`. -/
structure EstimationPayload where
  detection_id : ℤ
  include_paint : Bool
  labor_rate_override : Option ℚ
  markup_override : Option ℚ
deriving DecidableEq, Repr

/-- The payload construction in `createEstimation` (`services/api.js`):
`include_paint: options.includePaint !== false`,
`labor_rate_override: options.laborRate || null`,
`markup_override: options.markup || null`. -/
def createEstimationPayload (detectionId : ℤ) (options : EstimationOptions) :
    EstimationPayload :=
  { detection_id := detectionId
    include_paint := options.includePaint != some false
    labor_rate_override := jsOrNullNum options.laborRate
    markup_override := jsOrNullNum options.markup }

/-- The `error.response.data` object seen by the response interceptor:
optional `detail` and `message` string fields. -/
structure ErrorData where
  detail : Option String := none
  message : Option String := none
deriving DecidableEq, Repr

/-- The `error.response` object: its `data` may itself be absent
(the interceptor reads `error.response.data?.detail`). -/
structure ErrorResponse where
  data : Option ErrorData := none
deriving DecidableEq, Repr

/-- An axios error as seen by the response interceptor in `services/api.js`:
`response` is present when the server answered with an error status,
`request` is true when a request object exists (request sent, no response),
and `message` is the underlying error message string. -/
structure AxiosError where
  response : Option ErrorResponse := none
  request : Bool := false
  message : String := ""
deriving DecidableEq, Repr

/-- The JavaScript expression `x || d` for an optional string `x`:
`undefined`, `null` and the empty string are falsy. -/
def jsOrStr (x : Option String) (d : String) : String :=
  match x with
  | none => d
  | some s => if s = "" then d else s

/-- Optional chaining `error.response.data?.f` for a field of `data`. -/
def dataField (r : ErrorResponse) (f : ErrorData → Option String) : Option String :=
  match r.data with
  | none => none
  | some d => f d

/-- The error branch of the response interceptor in `services/api.js`:
when `error.response` exists the thrown message is
`error.response.data?.detail || error.response.data?.message || 'Server error occurred'`;
otherwise when `error.request` exists it is the connection-failure message;
otherwise it is `error.message || 'An unexpected error occurred'`. -/
def interceptError (e : AxiosError) : String :=
  match e.response with
  | some r =>
      jsOrStr (dataField r ErrorData.detail)
        (jsOrStr (dataField r ErrorData.message) "Server error occurred")
  | none =>
      if e.request then
        "Cannot connect to server. Please ensure the backend is running."
      else if e.message = "" then "An unexpected error occurred"
      else e.message

/-- Outcome of the underlying HTTP transport for one request: either the
server's success data or an axios error handed to the response interceptor. -/
inductive HttpOutcome (α : Type) where
  | success : α → HttpOutcome α
  | failure : AxiosError → HttpOutcome α

/-- An `api.post`/`api.get` call with the response interceptor installed:
a transport failure is rethrown as an `Error` whose message is produced by
`interceptError`. -/
def apiRequest {α : Type} (outcome : HttpOutcome α) : Except String α :=
  match outcome with
  | .success a => .ok a
  | .failure e => .error (interceptError e)

/-- The form data built by `detectDamage` in `services/api.js`:
`file`, `confidence_threshold`, `detect_severity: true`. -/
structure DetectFormData where
  file : Nat
  confidence_threshold : ℚ
  detect_severity : Bool
deriving DecidableEq, Repr

/-- `detectDamage(imageFile, confidenceThreshold = 0.25)`: posts the form
data and on failure logs and rethrows the interceptor's error unchanged. -/
def detectDamage {α : Type} (imageFile : Nat) (confidenceThreshold : ℚ)
    (transport : DetectFormData → HttpOutcome α) : Except String α :=
  match apiRequest (transport
      { file := imageFile
        confidence_threshold := confidenceThreshold
        detect_severity := true }) with
  | .ok a => .ok a
  | .error m => .error m

/-- `createEstimation(detectionId, options = {})`: posts the payload built
by `createEstimationPayload` and on failure logs and rethrows the error. -/
def createEstimation {α : Type} (detectionId : ℤ) (options : EstimationOptions)
    (transport : EstimationPayload → HttpOutcome α) : Except String α :=
  match apiRequest (transport (createEstimationPayload detectionId options)) with
  | .ok a => .ok a
  | .error m => .error m

/-- `getDetection(detectionId)`: GET `/detections/{id}`, rethrows failures. -/
def getDetection {α : Type} (detectionId : ℤ)
    (transport : ℤ → HttpOutcome α) : Except String α :=
  match apiRequest (transport detectionId) with
  | .ok a => .ok a
  | .error m => .error m

/-- `getEstimation(detectionId)`: GET `/estimations/detection/{id}`,
rethrows failures. -/
def getEstimation {α : Type} (detectionId : ℤ)
    (transport : ℤ → HttpOutcome α) : Except String α :=
  match apiRequest (transport detectionId) with
  | .ok a => .ok a
  | .error m => .error m

/-- `getEstimationSummary(detectionId)`: GET `/estimations/summary/{id}`,
rethrows failures. -/
def getEstimationSummary {α : Type} (detectionId : ℤ)
    (transport : ℤ → HttpOutcome α) : Except String α :=
  match apiRequest (transport detectionId) with
  | .ok a => .ok a
  | .error m => .error m

/-- `listDetections(page = 1, pageSize = 10)`: GET `/detections/` with the
pagination params, rethrows failures. -/
def listDetections {α : Type} (page pageSize : ℤ)
    (transport : ℤ → ℤ → HttpOutcome α) : Except String α :=
  match apiRequest (transport page pageSize) with
  | .ok a => .ok a
  | .error m => .error m

end Api

namespace Frontend

/-- One detected damage instance as consumed by `DetectionResults.jsx`:
`severity` arrives as a raw string from the backend. -/
structure Damage where
  damage_type : String
  severity : String
  confidence : ℚ
  bbox_x : ℚ
  bbox_y : ℚ
  affected_part : Option String := none
deriving DecidableEq, Repr

/-- `getSeverityBadge` in `DetectionResults.jsx`: looks `severity` up in the
literal object `{minor: 'badge-success', moderate: 'badge-warning',
severe: 'badge-danger'}` and falls back with `|| 'badge-warning'` when the
lookup is `undefined`. -/
def getSeverityBadge (severity : String) : String :=
  if severity = "minor" then "badge-success"
  else if severity = "moderate" then "badge-warning"
  else if severity = "severe" then "badge-danger"
  else "badge-warning"

/-- `getSeverityIcon` in `DetectionResults.jsx`: severe and moderate get
their own icon, everything else falls through to the green (minor) icon. -/
def getSeverityIcon (severity : String) : String :=
  if severity = "severe" then "red-circle"
  else if severity = "moderate" then "yellow-circle"
  else "green-circle"

/-- The sum `damages_detected.reduce((acc, d) => acc + d.confidence, 0)`
from `DetectionResults.jsx`. -/
def sumConfidence (damages : List Damage) : ℚ :=
  damages.foldl (fun acc d => acc + d.confidence) 0

/-- The Confidence stat in `DetectionResults.jsx`: when
`damages_detected.length > 0` it shows the average confidence as a
percentage, otherwise it renders the literal text N/A (`none` here). -/
def confidenceDisplay (damages_detected : List Damage) : Option ℚ :=
  if damages_detected.length > 0 then
    some (sumConfidence damages_detected / (damages_detected.length : ℚ) * 100)
  else none

/-- The detection response data held in `App.jsx` state
(`detection_id`, `total_damages`, `damages_detected`, `processing_time`). -/
structure DetectionData where
  detection_id : ℤ
  total_damages : Nat
  damages_detected : List Damage
  processing_time : ℚ
deriving DecidableEq, Repr

/-- The error banner state in `App.jsx`: `{ type, message }`. -/
structure ErrorMsg where
  type : String
  message : String
deriving DecidableEq, Repr

/-- The estimation response data destructured by `CostEstimation.jsx`. -/
structure EstimationView where
  parts_cost : ℚ
  labor_cost : ℚ
  paint_cost : ℚ
  markup : ℚ
  total_cost : ℚ
  estimated_labor_hours : ℚ
  labor_rate : ℚ
  markup_percentage : ℚ
deriving DecidableEq, Repr

/-- The React state of `App.jsx`: uploaded file, its object URL preview,
detection and estimation results, loading flag, error banner, and the
current wizard step. -/
structure AppState where
  uploadedImage : Option Nat := none
  imagePreview : Option Nat := none
  detectionData : Option DetectionData := none
  costEstimation : Option EstimationView := none
  loading : Bool := false
  error : Option ErrorMsg := none
  step : Nat := 1
deriving DecidableEq, Repr

/-- `handleImageUpload(file)` in `App.jsx`: stores the file and its object
URL (modelled as the file id itself) and clears detection data, cost
estimation and error while resetting the step to 1. -/
def handleImageUpload (s : AppState) (file : Nat) : AppState :=
  { s with
    uploadedImage := some file
    imagePreview := some file
    detectionData := none
    costEstimation := none
    error := none
    step := 1 }

/-- The guard of `handleEstimate` in `App.jsx`:
`if (!detectionData || detectionData.total_damages === 0) return` — the
request `createEstimation(detectionData.detection_id)` is issued (the
returned value is `some` of its detection id) only when detection data is
present with a nonzero damage count. -/
def handleEstimateRequest (s : AppState) : Option ℤ :=
  match s.detectionData with
  | none => none
  | some d => if d.total_damages = 0 then none else some d.detection_id

end Frontend

namespace Engine

/-- Modelled from the spec: the fixed severity set of §3
(`minor` | `moderate` | `severe`); the engine source is not in the
repository snapshot. -/
inductive Severity where
  | minor
  | moderate
  | severe
deriving DecidableEq, Repr

/-- Modelled from the spec: a CostRule (§3) holds parts cost, labor hours
and paint cost for one (damage type, severity) pair. -/
structure CostRule where
  parts_cost : ℚ
  labor_hours : ℚ
  paint_cost : ℚ
deriving DecidableEq, Repr

/-- Modelled from the spec: a LineItem (§3), one per damage instance. -/
structure LineItem where
  damage_type : String
  severity : Severity
  parts_cost : ℚ
  labor_hours : ℚ
  labor_cost : ℚ
  paint_cost : ℚ
  subtotal : ℚ
deriving DecidableEq, Repr

/-- Modelled from the spec: the engine error taxonomy of §7 that the
claims need (`InvalidOverride` names the offending field and value). -/
inductive EngineError where
  | InvalidOverride (field : String) (value : ℚ)
  | DetectionNotFound
  | CostRuleMissing
deriving DecidableEq, Repr

/-- Modelled from the spec: the Line-Item Calculator (§4.4):
`labor_cost = labor_hours * labor_rate`,
`paint_cost = cost_rule.paint_cost if include_paint else 0`,
`subtotal = parts_cost + labor_cost + paint_cost`. -/
def computeLineItem (damage_type : String) (severity : Severity)
    (rule : CostRule) (labor_rate : ℚ) (include_paint : Bool) : LineItem :=
  let labor_cost := rule.labor_hours * labor_rate
  let paint_cost := if include_paint then rule.paint_cost else 0
  let parts_cost := rule.parts_cost
  { damage_type := damage_type
    severity := severity
    parts_cost := parts_cost
    labor_hours := rule.labor_hours
    labor_cost := labor_cost
    paint_cost := paint_cost
    subtotal := parts_cost + labor_cost + paint_cost }

/-- Modelled from the spec: the Aggregator output (§4.5). -/
structure Aggregate where
  parts_total : ℚ
  labor_total : ℚ
  paint_total : ℚ
  hours_total : ℚ
  markup : ℚ
  total_cost : ℚ
deriving DecidableEq, Repr

/-- Modelled from the spec: the Aggregator (§4.5): sums parts, labor,
paint and hours over the line items,
`markup = (parts_total + labor_total + paint_total) * markup_percentage / 100`,
`total_cost = parts_total + labor_total + paint_total + markup`. -/
def aggregate (items : List LineItem) (markup_percentage : ℚ) : Aggregate :=
  let parts_total := (items.map LineItem.parts_cost).sum
  let labor_total := (items.map LineItem.labor_cost).sum
  let paint_total := (items.map LineItem.paint_cost).sum
  let hours_total := (items.map LineItem.labor_hours).sum
  let markup := (parts_total + labor_total + paint_total) * markup_percentage / 100
  { parts_total := parts_total
    labor_total := labor_total
    paint_total := paint_total
    hours_total := hours_total
    markup := markup
    total_cost := parts_total + labor_total + paint_total + markup }

/-- Modelled from the spec: the Override Resolver (§4.3): explicit request
override beats the system default; the resolved labor rate must be strictly
positive and the resolved markup percentage must be in [0, 100], otherwise
the request fails with `InvalidOverride` naming the field and value. -/
def resolveOverrides (laborRateOverride markupOverride : Option ℚ)
    (defaultLaborRate defaultMarkup : ℚ) : Except EngineError (ℚ × ℚ) :=
  let labor_rate := laborRateOverride.getD defaultLaborRate
  let markup_percentage := markupOverride.getD defaultMarkup
  if labor_rate ≤ 0 then
    .error (.InvalidOverride "labor_rate" labor_rate)
  else if markup_percentage < 0 ∨ 100 < markup_percentage then
    .error (.InvalidOverride "markup_percentage" markup_percentage)
  else
    .ok (labor_rate, markup_percentage)

/-- Modelled from the spec: the Estimation entity (§3). -/
structure Estimation where
  detection_id : ℤ
  parts_cost : ℚ
  labor_cost : ℚ
  paint_cost : ℚ
  markup : ℚ
  markup_percentage : ℚ
  labor_rate : ℚ
  estimated_labor_hours : ℚ
  total_cost : ℚ
  damage_items : List LineItem
deriving DecidableEq, Repr

/-- Modelled from the spec: the estimation pipeline (§4.3–§4.6, §6):
overrides are resolved and validated before any computation — an
`InvalidOverride` rejects the request and no Estimation is created —
then each damage instance (already carrying its resolved severity and its
looked-up cost rule) becomes a line item, the aggregator totals them, and
the Estimation record is assembled. -/
def estimate (detection_id : ℤ)
    (damages : List (String × Severity × CostRule)) (include_paint : Bool)
    (laborRateOverride markupOverride : Option ℚ)
    (defaultLaborRate defaultMarkup : ℚ) : Except EngineError Estimation :=
  match resolveOverrides laborRateOverride markupOverride
      defaultLaborRate defaultMarkup with
  | .error e => .error e
  | .ok (labor_rate, markup_percentage) =>
      let items := damages.map fun d =>
        computeLineItem d.1 d.2.1 d.2.2 labor_rate include_paint
      let agg := aggregate items markup_percentage
      .ok
        { detection_id := detection_id
          parts_cost := agg.parts_total
          labor_cost := agg.labor_total
          paint_cost := agg.paint_total
          markup := agg.markup
          markup_percentage := markup_percentage
          labor_rate := labor_rate
          estimated_labor_hours := agg.hours_total
          total_cost := agg.total_cost
          damage_items := items }

end Engine

namespace Engine

lemma computeLineItem_subtotal (dt : String) (sev : Severity) (rule : CostRule)
    (lr : ℚ) (ip : Bool) :
    (computeLineItem dt sev rule lr ip).subtotal =
      (computeLineItem dt sev rule lr ip).parts_cost +
      (computeLineItem dt sev rule lr ip).labor_cost +
      (computeLineItem dt sev rule lr ip).paint_cost := rfl

lemma list_sum_subtotal (damages : List (String × Severity × CostRule))
    (lr : ℚ) (ip : Bool) :
    ((damages.map fun d => computeLineItem d.1 d.2.1 d.2.2 lr ip).map
        LineItem.subtotal).sum =
      ((damages.map fun d => computeLineItem d.1 d.2.1 d.2.2 lr ip).map
        LineItem.parts_cost).sum +
      ((damages.map fun d => computeLineItem d.1 d.2.1 d.2.2 lr ip).map
        LineItem.labor_cost).sum +
      ((damages.map fun d => computeLineItem d.1 d.2.1 d.2.2 lr ip).map
        LineItem.paint_cost).sum := by
  induction damages with
  | nil => simp
  | cons d rest ih =>
      simp only [List.map_cons, List.sum_cons]
      rw [computeLineItem_subtotal, ih]
      ring

end Engine

/-- C2: for every Estimation produced by the engine (and rendered verbatim
by `CostEstimation.jsx`), the markup equals
(parts_cost + labor_cost + paint_cost) * markup_percentage / 100 and the
total cost equals the sum of all line-item subtotals plus the markup. -/
theorem C2_estimation_invariants (detection_id : ℤ)
    (damages : List (String × Engine.Severity × Engine.CostRule))
    (include_paint : Bool) (lrO mkO : Option ℚ) (dlr dmk : ℚ)
    (est : Engine.Estimation)
    (h : Engine.estimate detection_id damages include_paint lrO mkO dlr dmk =
      Except.ok est) :
    est.markup =
      (est.parts_cost + est.labor_cost + est.paint_cost) *
        est.markup_percentage / 100 ∧
    est.total_cost =
      (est.damage_items.map Engine.LineItem.subtotal).sum + est.markup := by
  unfold Engine.estimate at h
  cases hres : Engine.resolveOverrides lrO mkO dlr dmk with
  | error e =>
      rw [hres] at h
      exact absurd h (by simp)
  | ok p =>
      obtain ⟨lr, mp⟩ := p
      rw [hres] at h
      simp only [Except.ok.injEq] at h
      subst h
      refine ⟨rfl, ?_⟩
      show (Engine.aggregate _ mp).total_cost = _
      rw [Engine.list_sum_subtotal damages lr include_paint]
      simp only [Engine.aggregate]

/-- One-line-item example from the spec (§8): damaged_bumper, moderate,
rule parts 400 / labor 3 h / paint 400, labor rate 75, markup 20 %. -/
def exampleDamages : List (String × Engine.Severity × Engine.CostRule) :=
  [("damaged_bumper", Engine.Severity.moderate,
    { parts_cost := 400, labor_hours := 3, paint_cost := 400 })]

/-- The Estimation the engine produces on `exampleDamages`
(labor 225, subtotal 1025, markup 205, total 1230, as in spec §8). -/
def exampleEstimation : Engine.Estimation :=
  { detection_id := 1
    parts_cost := 400
    labor_cost := 225
    paint_cost := 400
    markup := 205
    markup_percentage := 20
    labor_rate := 75
    estimated_labor_hours := 3
    total_cost := 1230
    damage_items :=
      [{ damage_type := "damaged_bumper"
         severity := Engine.Severity.moderate
         parts_cost := 400
         labor_hours := 3
         labor_cost := 225
         paint_cost := 400
         subtotal := 1025 }] }

/-- Witness for C2 at the spec's worked example. -/
theorem C2_estimation_invariants_witness :
    exampleEstimation.markup =
      (exampleEstimation.parts_cost + exampleEstimation.labor_cost +
        exampleEstimation.paint_cost) * exampleEstimation.markup_percentage / 100 ∧
    exampleEstimation.total_cost =
      (exampleEstimation.damage_items.map Engine.LineItem.subtotal).sum +
        exampleEstimation.markup :=
  C2_estimation_invariants 1 exampleDamages true none none 75 20
    exampleEstimation (by
      simp only [Engine.estimate, Engine.resolveOverrides, exampleDamages,
        Engine.computeLineItem, Engine.aggregate, exampleEstimation,
        Option.getD_none, Option.getD_some, List.map_cons, List.map_nil,
        List.sum_cons, List.sum_nil]
      norm_num)

/-- C5: estimating a detection with an empty damage-instance list is a
valid, non-error operation whose result has total_cost = 0, markup = 0 and
an empty line-item list; additionally the frontend (`handleEstimate` in
`App.jsx`) issues no estimation request at all when the detection reports
zero damages. -/
theorem C5_empty_damages_zero_estimate (dlr dmk : ℚ)
    (h1 : 0 < dlr) (h2 : 0 ≤ dmk) (h3 : dmk ≤ 100) (detection_id : ℤ)
    (s : Frontend.AppState) (d : Frontend.DetectionData)
    (hs : s.detectionData = some d) (hd : d.total_damages = 0) :
    (∃ est : Engine.Estimation,
      Engine.estimate detection_id [] true none none dlr dmk = Except.ok est ∧
      est.total_cost = 0 ∧ est.markup = 0 ∧ est.damage_items = []) ∧
    Frontend.handleEstimateRequest s = none := by
  have hres : Engine.resolveOverrides none none dlr dmk = .ok (dlr, dmk) := by
    simp only [Engine.resolveOverrides, Option.getD_none]
    rw [if_neg (not_le.mpr h1), if_neg (by
      rw [not_or, not_lt, not_lt]
      exact ⟨h2, h3⟩)]
  constructor
  · refine ⟨{ detection_id := detection_id
              parts_cost := 0
              labor_cost := 0
              paint_cost := 0
              markup := 0
              markup_percentage := dmk
              labor_rate := dlr
              estimated_labor_hours := 0
              total_cost := 0
              damage_items := [] }, ?_, rfl, rfl, rfl⟩
    unfold Engine.estimate
    rw [hres]
    simp [Engine.aggregate]
  · simp [Frontend.handleEstimateRequest, hs, hd]

/-- A detection with zero damages, as `App.jsx` would hold it in state. -/
def zeroDamageDetection : Frontend.DetectionData :=
  { detection_id := 9
    total_damages := 0
    damages_detected := []
    processing_time := 1 }

/-- Application state right after detecting zero damages. -/
def zeroDamageState : Frontend.AppState :=
  { detectionData := some zeroDamageDetection }

/-- Witness for C5 at labor rate 75 and markup 20. -/
theorem C5_empty_damages_zero_estimate_witness :
    (∃ est : Engine.Estimation,
      Engine.estimate 9 [] true none none 75 20 = Except.ok est ∧
      est.total_cost = 0 ∧ est.markup = 0 ∧ est.damage_items = []) ∧
    Frontend.handleEstimateRequest zeroDamageState = none :=
  C5_empty_damages_zero_estimate 75 20 (by norm_num) (by norm_num)
    (by norm_num) 9 zeroDamageState zeroDamageDetection rfl rfl

/-- C6: an estimation request whose labor-rate override is non-strictly
positive (for example −5) fails with `InvalidOverride` naming the
labor_rate field before any line item is computed, and no Estimation
record is created; the frontend forwards −5 verbatim as
`labor_rate_override` rather than filtering it. -/
theorem C6_nonpositive_labor_rate_rejected (detection_id : ℤ)
    (damages : List (String × Engine.Severity × Engine.CostRule))
    (ip : Bool) (mkO : Option ℚ) (dlr dmk : ℚ) (lr : ℚ) (hlr : lr ≤ 0) :
    Engine.estimate detection_id damages ip (some lr) mkO dlr dmk =
      Except.error (Engine.EngineError.InvalidOverride "labor_rate" lr) ∧
    (Api.createEstimationPayload detection_id
      { laborRate := some (-5) }).labor_rate_override = some (-5) := by
  constructor
  · have hres : Engine.resolveOverrides (some lr) mkO dlr dmk =
        .error (.InvalidOverride "labor_rate" lr) := by
      unfold Engine.resolveOverrides
      rw [Option.getD_some, if_pos hlr]
    unfold Engine.estimate
    rw [hres]
  · have : ((-5 : ℚ) = 0) = False := by norm_num
    simp [Api.createEstimationPayload, Api.jsOrNullNum, this]

/-- Witness for C6 at labor-rate override −5. -/
theorem C6_nonpositive_labor_rate_rejected_witness :
    Engine.estimate 4 [] true (some (-5)) none 50 10 =
      Except.error (Engine.EngineError.InvalidOverride "labor_rate" (-5)) ∧
    (Api.createEstimationPayload 4
      { laborRate := some (-5) }).labor_rate_override = some (-5) :=
  C6_nonpositive_labor_rate_rejected 4 [] true none 50 10 (-5) (by norm_num)

/-- C4: every failed API operation (`detectDamage`, `createEstimation`,
`getDetection`, `getEstimation`, `getEstimationSummary`, `listDetections`)
rethrows a distinguishable error to its caller rather than swallowing it;
when the server responded, the thrown message is the response's `detail`
field, else its `message` field, else the literal Server error occurred;
when no response arrived, it is the connection-failure message. -/
theorem C4_api_failures_rethrown {α : Type} (e : Api.AxiosError)
    (file : Nat) (ct : ℚ) (detectionId page pageSize : ℤ)
    (options : Api.EstimationOptions) :
    ((Api.detectDamage file ct fun _ => Api.HttpOutcome.failure e :
        Except String α) = Except.error (Api.interceptError e)) ∧
    ((Api.createEstimation detectionId options
        fun _ => Api.HttpOutcome.failure e :
        Except String α) = Except.error (Api.interceptError e)) ∧
    ((Api.getDetection detectionId fun _ => Api.HttpOutcome.failure e :
        Except String α) = Except.error (Api.interceptError e)) ∧
    ((Api.getEstimation detectionId fun _ => Api.HttpOutcome.failure e :
        Except String α) = Except.error (Api.interceptError e)) ∧
    ((Api.getEstimationSummary detectionId fun _ => Api.HttpOutcome.failure e :
        Except String α) = Except.error (Api.interceptError e)) ∧
    ((Api.listDetections page pageSize fun _ _ => Api.HttpOutcome.failure e :
        Except String α) = Except.error (Api.interceptError e)) ∧
    (∀ r d s, e.response = some r → r.data = some d → d.detail = some s →
      s ≠ "" → Api.interceptError e = s) ∧
    (∀ r d m, e.response = some r → r.data = some d → d.detail = none →
      d.message = some m → m ≠ "" → Api.interceptError e = m) ∧
    (∀ r, e.response = some r → r.data = none →
      Api.interceptError e = "Server error occurred") ∧
    (e.response = none → e.request = true →
      Api.interceptError e =
        "Cannot connect to server. Please ensure the backend is running.") := by
  refine ⟨rfl, rfl, rfl, rfl, rfl, rfl, ?_, ?_, ?_, ?_⟩
  · intro r d s hr hd hs hne
    simp [Api.interceptError, Api.jsOrStr, Api.dataField, hr, hd, hs, hne]
  · intro r d m hr hd hdet hm hne
    simp [Api.interceptError, Api.jsOrStr, Api.dataField, hr, hd, hdet, hm, hne]
  · intro r hr hd
    simp [Api.interceptError, Api.jsOrStr, Api.dataField, hr, hd]
  · intro hr hreq
    simp [Api.interceptError, hr, hreq]

/-- A server 404 error as the interceptor would receive it. -/
def notFoundError : Api.AxiosError :=
  { response := some { data := some { detail := some "Detection not found" } }
    request := false
    message := "Request failed with status code 404" }

/-- Witness for C4: a failing `createEstimation` call surfaces the server's
detail message. -/
theorem C4_api_failures_rethrown_witness :
    ((Api.createEstimation 7 {} fun _ => Api.HttpOutcome.failure notFoundError :
        Except String Nat) = Except.error (Api.interceptError notFoundError)) ∧
    Api.interceptError notFoundError = "Detection not found" :=
  ⟨(@C4_api_failures_rethrown Nat notFoundError 0 1 7 1 10 {}).2.1,
   (@C4_api_failures_rethrown Nat notFoundError 0 1 7 1 10 {}).2.2.2.2.2.2.1
     { data := some { detail := some "Detection not found" } }
     { detail := some "Detection not found" }
     "Detection not found" rfl rfl rfl (by decide)⟩

/-- C1: evaluation of `createEstimation`'s payload at the failing input
markup = 0 — although 0 lies in the valid range [0, 100], the JavaScript
expression `options.markup || null` treats 0 as falsy, so the payload
carries `markup_override = null` instead of 0 and the engine silently
falls back to the system default markup; a nonzero markup and an omitted
markup behave as the claim states. -/
theorem C1_markup_zero_not_forwarded :
    (Api.createEstimationPayload 1 { markup := some 0 }).markup_override
      = none ∧
    (Api.createEstimationPayload 1 { markup := some 0 }).markup_override
      ≠ some 0 ∧
    (Api.createEstimationPayload 1 { markup := some 37 }).markup_override
      = some 37 ∧
    (Api.createEstimationPayload 1 {}).markup_override = none := by
  refine ⟨?_, ?_, ?_, ?_⟩ <;>
    simp [Api.createEstimationPayload, Api.jsOrNullNum]

/-- C3 counterexample: the severity string corrosion is outside the fixed
set {minor, moderate, severe}, yet `getSeverityBadge` in
`DetectionResults.jsx` does not reject it — it silently coerces it to
badge-warning, the badge class of the moderate severity. -/
theorem C3_unknown_severity_coerced_counterexample :
    ("corrosion" ≠ "minor" ∧ "corrosion" ≠ "moderate" ∧
      "corrosion" ≠ "severe") ∧
    Frontend.getSeverityBadge "corrosion" = "badge-warning" := by
  refine ⟨⟨?_, ?_, ?_⟩, rfl⟩ <;> decide

/-- C3 (amended): `getSeverityBadge` maps the three valid severities to
their fixed badge classes, but every severity value outside the fixed set
is silently coerced to badge-warning (the moderate badge class) by the
`|| 'badge-warning'` fallback, rather than being rejected. -/
theorem C3_unknown_severity_defaults_to_warning :
    Frontend.getSeverityBadge "minor" = "badge-success" ∧
    Frontend.getSeverityBadge "moderate" = "badge-warning" ∧
    Frontend.getSeverityBadge "severe" = "badge-danger" ∧
    ∀ s : String, s ≠ "minor" → s ≠ "moderate" → s ≠ "severe" →
      Frontend.getSeverityBadge s = "badge-warning" := by
  refine ⟨rfl, rfl, rfl, ?_⟩
  intro s h1 h2 h3
  simp [Frontend.getSeverityBadge, h1, h2, h3]

/-- Witness for the amended C3 at the unknown severity rust. -/
theorem C3_unknown_severity_defaults_to_warning_witness :
    Frontend.getSeverityBadge "rust" = "badge-warning" :=
  C3_unknown_severity_defaults_to_warning.2.2.2 "rust"
    (by decide) (by decide) (by decide)

/-- C7: the payload's `include_paint` field defaults to true when the
option is omitted and is false only when the caller explicitly passes
`includePaint === false`. -/
theorem C7_include_paint_defaults_true (detectionId : ℤ)
    (options : Api.EstimationOptions) :
    (options.includePaint = none →
      (Api.createEstimationPayload detectionId options).include_paint = true) ∧
    (options.includePaint = some true →
      (Api.createEstimationPayload detectionId options).include_paint = true) ∧
    (options.includePaint = some false →
      (Api.createEstimationPayload detectionId options).include_paint = false) := by
  refine ⟨?_, ?_, ?_⟩ <;> intro h <;>
    simp [Api.createEstimationPayload, h]

/-- Witness for C7 with the options object omitted entirely (the
`handleEstimate` call site in `App.jsx` passes no options). -/
theorem C7_include_paint_defaults_true_witness :
    (Api.createEstimationPayload 5 {}).include_paint = true :=
  (C7_include_paint_defaults_true 5 {}).1 rfl

/-- C8: a zero-valued labor-rate or markup option is indistinguishable
from an omitted one — `options.laborRate || null` and
`options.markup || null` turn 0 into null, so the payload sends no
override and the engine falls back to the system default instead of
validating the 0. -/
theorem C8_zero_overrides_become_null (detectionId : ℤ)
    (options : Api.EstimationOptions) :
    (options.laborRate = some 0 →
      (Api.createEstimationPayload detectionId options).labor_rate_override
        = none) ∧
    (options.markup = some 0 →
      (Api.createEstimationPayload detectionId options).markup_override
        = none) := by
  constructor <;> intro h <;>
    simp [Api.createEstimationPayload, Api.jsOrNullNum, h]

/-- Witness for C8 with both options set to 0. -/
theorem C8_zero_overrides_become_null_witness :
    (Api.createEstimationPayload 3
      { laborRate := some 0, markup := some 0 }).labor_rate_override = none ∧
    (Api.createEstimationPayload 3
      { laborRate := some 0, markup := some 0 }).markup_override = none :=
  ⟨(C8_zero_overrides_become_null 3
      { laborRate := some 0, markup := some 0 }).1 rfl,
   (C8_zero_overrides_become_null 3
      { laborRate := some 0, markup := some 0 }).2 rfl⟩

/-- C9: after `handleImageUpload` runs for a new file, detection data,
cost estimation and the error banner are all cleared and the wizard is
back at step 1, so no result of a previously uploaded image survives. -/
theorem C9_upload_clears_previous_results (s : Frontend.AppState)
    (file : Nat) :
    (Frontend.handleImageUpload s file).detectionData = none ∧
    (Frontend.handleImageUpload s file).costEstimation = none ∧
    (Frontend.handleImageUpload s file).error = none ∧
    (Frontend.handleImageUpload s file).step = 1 :=
  ⟨rfl, rfl, rfl, rfl⟩

/-- C10: the average-confidence expression in `DetectionResults.jsx` is
evaluated only under the `damages_detected.length > 0` guard (N/A is
rendered otherwise), so the divisor is never zero when the division is
performed. -/
theorem C10_average_confidence_guarded (ds : List Frontend.Damage) :
    (ds.length = 0 → Frontend.confidenceDisplay ds = none) ∧
    (0 < ds.length →
      ((ds.length : ℚ) ≠ 0 ∧
        Frontend.confidenceDisplay ds =
          some (Frontend.sumConfidence ds / (ds.length : ℚ) * 100))) := by
  constructor
  · intro h
    simp [Frontend.confidenceDisplay, h]
  · intro h
    refine ⟨Nat.cast_ne_zero.mpr (Nat.pos_iff_ne_zero.mp h), ?_⟩
    simp [Frontend.confidenceDisplay, h]

/-- A single detected damage used to witness C10. -/
def sampleDamage : Frontend.Damage :=
  { damage_type := "dent-or-scratch"
    severity := "minor"
    confidence := 9 / 10
    bbox_x := 1 / 4
    bbox_y := 1 / 2 }

/-- Witness for C10 on a one-element damage list. -/
theorem C10_average_confidence_guarded_witness :
    (([sampleDamage] : List Frontend.Damage).length : ℚ) ≠ 0 ∧
    Frontend.confidenceDisplay [sampleDamage] =
      some (Frontend.sumConfidence [sampleDamage] /
        (([sampleDamage] : List Frontend.Damage).length : ℚ) * 100) :=
  (C10_average_confidence_guarded [sampleDamage]).2 (by decide)
